import Mathlib

/-!
Shallow embedding of the bulk email campaign pipeline of the
`email_automation` repository (`email_app.py`, `email_gui.py`).

Pure pieces of the Python code (template substitution, CSV row
processing, attachment validation, the bulk-send loops) are translated
into executable Lean definitions.  File-system state is an explicit
association list of path/metadata pairs; the SMTP exchange is an
explicit stub parameter (`Except String Unit` per recipient), and the
cancellation flag of the GUI worker is an explicit function from the
loop index to `Bool`.  Brace characters inside string literals are
written with the `\x7b` / `\x7d` escapes.
-/

namespace EmailAutomation

/-- A recipient record: an ordered association list from column name to
string value, as produced by one `csv.DictReader` row after cleaning. -/
abbrev Record := List (String × String)

/-- Dictionary lookup on a record, modelling Python `dict.get` /
subscript access (keys are unique in a record, so first match wins). -/
def recLookup (r : Record) (k : String) : Option String :=
  (r.find? (fun kv => kv.1 == k)).map (fun kv => kv.2)

/-- Fueled worker for `pyReplace`.  Models Python `str.replace(pat, rep)`:
replaces non-overlapping occurrences of `pat` left to right.  The fuel is
the length of the remaining character list, which makes the recursion
structural; `pyReplace` always supplies enough fuel.  (Python treats an
empty pattern specially; the patterns used by the program, placeholders
of the shape `\x7b\x7bkey\x7d\x7d`, are never empty, and an empty
pattern here just leaves the text unchanged.) -/
def pyReplaceAux (pat rep : List Char) : Nat → List Char → List Char
  | 0, l => l
  | fuel + 1, l =>
    match l with
    | [] => []
    | c :: rest =>
      if !pat.isEmpty && pat.isPrefixOf (c :: rest) then
        rep ++ pyReplaceAux pat rep fuel (rest.drop (pat.length - 1))
      else
        c :: pyReplaceAux pat rep fuel rest

/-- Python `s.replace(pat, rep)` on Lean strings. -/
def pyReplace (s pat rep : String) : String :=
  ⟨pyReplaceAux pat.data rep.data s.data.length s.data⟩

/-- The placeholder text for a column name: `f"\x7b\x7b\x7b\x7b\x7bkey\x7d\x7d\x7d\x7d\x7d"`
in the source, i.e. the key wrapped in double braces. -/
def placeholder (key : String) : String :=
  "\x7b\x7b" ++ key ++ "\x7d\x7d"

/-- `TemplateRenderer._basic_template_replace` (email_app.py) and the
identical `EmailWorker.render_template` (email_gui.py): fold over the
record's fields in order, replacing each field's placeholder by its
value in the intermediate text. -/
def basic_template_replace (content : String) (data : Record) : String :=
  data.foldl (fun rendered kv => pyReplace rendered (placeholder kv.1) kv.2) content

/-- Claim C5: under the basic rendering strategy, a placeholder whose
column is present in the record is replaced by that column's value, and
a placeholder whose column is absent is left as its literal text:
rendering `"Hello \x7b\x7bname\x7d\x7d"` against `name := "Jane"` gives
`"Hello Jane"`, and rendering `"Hi \x7b\x7bmissing\x7d\x7d"` against the
same record leaves the text unchanged. -/
theorem basic_replace_known_and_unknown_placeholders :
    basic_template_replace "Hello \x7b\x7bname\x7d\x7d" [("name", "Jane")] = "Hello Jane" ∧
    basic_template_replace "Hi \x7b\x7bmissing\x7d\x7d" [("name", "Jane")] =
      "Hi \x7b\x7bmissing\x7d\x7d" := by
  decide

/-- Claim C10: basic substitution is sequential over the record's fields,
one field at a time, on the whole intermediate text.  A substituted value
that itself contains the placeholder of a field processed later is
replaced too, and reordering the record's fields changes the output. -/
theorem basic_replace_sequential_order_dependent :
    basic_template_replace "\x7b\x7ba\x7d\x7d"
      [("a", "\x7b\x7bb\x7d\x7d"), ("b", "X")] = "X" ∧
    basic_template_replace "\x7b\x7ba\x7d\x7d"
      [("b", "X"), ("a", "\x7b\x7bb\x7d\x7d")] = "\x7b\x7bb\x7d\x7d" := by
  decide

/-! ## File system and attachment validation -/

/-- Metadata of one path in the modelled file system: whether the path
is a regular file (`os.path.isfile`), its size in bytes
(`os.path.getsize`) and its text content (for template reading). -/
structure FileInfo where
  isFile : Bool
  size : Nat
  content : String
deriving DecidableEq

/-- The file system, an association list from path to metadata.  A path
absent from the list does not exist (`os.path.exists` is false). -/
abbrev FS := List (String × FileInfo)

/-- Path lookup in the modelled file system. -/
def fsLookup (fs : FS) (p : String) : Option FileInfo :=
  (fs.find? (fun e => e.1 == p)).map (fun e => e.2)

/-- Round-half-even division, the rounding used by CPython when
formatting a binary-exact float value to a fixed number of decimals. -/
def roundHalfEvenDiv (num den : Nat) : Nat :=
  let q := num / den
  let r := num % den
  if 2 * r < den then q
  else if den < 2 * r then q + 1
  else if q % 2 = 0 then q else q + 1

/-- `f"\x7bbytes / (1024 * 1024):.1f\x7d"`: the file size divided by
2^20 (exact in a double for any realistic size), rendered with one
decimal digit. -/
def fmtMB1 (bytes : Nat) : String :=
  let tenths := roundHalfEvenDiv (bytes * 10) 1048576
  toString (tenths / 10) ++ "." ++ toString (tenths % 10)

/-- The oversize error text of `AttachmentHandler.create_attachment`:
`f"File too large: \x7bsize_mb:.1f\x7dMB (max: \x7bmax_mb\x7dMB)"`.
`max_mb` is `max_size_bytes / (1024 * 1024)` where `max_size_bytes` is
always `max_size_mb * 1024 * 1024` for an integer `max_size_mb`
(constructor default 25, or the configured `max_file_size_mb`), so the
float prints as the integer followed by `.0`. -/
def tooLargeMessage (fileSize maxSizeMB : Nat) : String :=
  "File too large: " ++ fmtMB1 fileSize ++ "MB" ++ " (max: " ++
    toString maxSizeMB ++ ".0MB" ++ ")"

/-- `AttachmentHandler.create_attachment`: existence check, regular-file
check, size check against `max_size_bytes = maxSizeMB * 1024 * 1024`.
The successful construction of the MIME part (type inference, reading
the bytes, headers) always succeeds in this model and is collapsed to
`Unit`. -/
def create_attachment (fs : FS) (maxSizeMB : Nat) (filePath : String) : Except String Unit :=
  match fsLookup fs filePath with
  | none => .error ("Attachment file not found: " ++ filePath)
  | some info =>
    if !info.isFile then
      .error ("Attachment path is not a file: " ++ filePath)
    else if info.size > maxSizeMB * 1048576 then
      .error (tooLargeMessage info.size maxSizeMB)
    else
      .ok ()

/-- `needle` occurs as a contiguous substring of `hay`. -/
abbrev containsStr (hay needle : String) : Prop :=
  needle.data <:+: hay.data

/-- Any middle component of a concatenation is a substring. -/
theorem containsStr_parts (pre mid post : String) :
    containsStr (pre ++ mid ++ post) mid := by
  exact ⟨pre.data, post.data, by simp [containsStr, String.data_append]⟩

/-- Substring extraction for error lines of the shape
`pre ++ mid ++ s1 ++ s2`. -/
theorem containsStr_errLine (pre mid s1 s2 : String) :
    containsStr (pre ++ mid ++ s1 ++ s2) mid := by
  have h := containsStr_parts pre mid (s1 ++ s2)
  simpa [String.append_assoc] using h

/-- A trailing component of a concatenation is a substring. -/
theorem containsStr_suffix (x s : String) :
    containsStr (x ++ s) s := by
  have h := containsStr_parts x s ""
  simpa [String.append_empty] using h

/-- Claim C6, counterexample: for a 30 MB file against a 25 MB limit the
error message is `"File too large: 30.0MB (max: 25.0MB)"`.  The maximum
is rendered as the float `25.0`, so the literal text `25MB` claimed by
the specification does not occur in the message. -/
theorem tooLarge_message_counterexample :
    create_attachment [("big.bin", ⟨true, 31457280, ""⟩)] 25 "big.bin" =
      .error "File too large: 30.0MB (max: 25.0MB)" ∧
    ¬ containsStr "File too large: 30.0MB (max: 25.0MB)" "25MB" :=
  ⟨rfl, by decide⟩

/-- Claim C6 as amended: when the file's size strictly exceeds
`maxSizeMB * 1024 * 1024`, `create_attachment` fails with the oversize
error, whose message contains the actual size rendered to one decimal
place followed by `MB`, and the maximum rendered as `<maxSizeMB>.0MB`
(for 30 MB against a 25 MB limit: `30.0MB` actual, `25.0MB` max). -/
theorem create_attachment_too_large (fs : FS) (maxSizeMB : Nat) (p : String)
    (info : FileInfo) (hfind : fsLookup fs p = some info)
    (hfile : info.isFile = true) (hsize : info.size > maxSizeMB * 1048576) :
    create_attachment fs maxSizeMB p = .error (tooLargeMessage info.size maxSizeMB) ∧
    containsStr (tooLargeMessage info.size maxSizeMB) (fmtMB1 info.size ++ "MB") ∧
    containsStr (tooLargeMessage info.size maxSizeMB) (toString maxSizeMB ++ ".0MB") := by
  refine ⟨?_, ?_, ?_⟩
  · simp [create_attachment, hfind, hfile, hsize]
  · refine ⟨"File too large: ".data,
      (" (max: " ++ toString maxSizeMB ++ ".0MB" ++ ")").data, ?_⟩
    simp [containsStr, tooLargeMessage, String.data_append, List.append_assoc]
  · refine ⟨("File too large: " ++ fmtMB1 info.size ++ "MB" ++ " (max: ").data,
      ")".data, ?_⟩
    simp [containsStr, tooLargeMessage, String.data_append, List.append_assoc]

/-- Concrete witness for `create_attachment_too_large`: the 30 MB file
against the 25 MB limit. -/
theorem create_attachment_too_large_witness :
    fsLookup [("big.bin", ⟨true, 31457280, ""⟩)] "big.bin" =
        some ⟨true, 31457280, ""⟩ ∧
      (FileInfo.mk true 31457280 "").isFile = true ∧
      (FileInfo.mk true 31457280 "").size > 25 * 1048576 ∧
      tooLargeMessage 31457280 25 = "File too large: 30.0MB (max: 25.0MB)" ∧
      (create_attachment [("big.bin", ⟨true, 31457280, ""⟩)] 25 "big.bin" =
          .error (tooLargeMessage 31457280 25) ∧
        containsStr (tooLargeMessage 31457280 25) (fmtMB1 31457280 ++ "MB") ∧
        containsStr (tooLargeMessage 31457280 25) (toString 25 ++ ".0MB")) := by
  refine ⟨by decide, by decide, by decide, by decide, ?_⟩
  exact create_attachment_too_large [("big.bin", ⟨true, 31457280, ""⟩)] 25 "big.bin"
    ⟨true, 31457280, ""⟩ (by decide) (by decide) (by decide)

/-! ## `EmailSender.send_email` and the application bulk loop -/

/-- The attachment loop of `EmailSender.send_email`: each path is passed
to `create_attachment` in order; the first failure aborts the loop and
its error text is what the surrounding code wraps.  On success the
number of attached parts is returned. -/
def attachAll (fs : FS) (maxSizeMB : Nat) : List String → Except String Nat
  | [] => .ok 0
  | p :: rest =>
    match create_attachment fs maxSizeMB p with
    | .error e => .error e
    | .ok _ =>
      match attachAll fs maxSizeMB rest with
      | .error e => .error e
      | .ok n => .ok (n + 1)

/-- Result of one `send_email` call: `outcome` is `.ok b` when the
Python function returns `b` and `.error m` when it raises
`EmailSendError` with message `m`; `transportCalled` records whether the
SMTP exchange (connection plus `send_message`) was entered. -/
structure SendResult where
  outcome : Except String Bool
  transportCalled : Bool

/-- `EmailSender.send_email`.  `recipient` is `none` when the Python
caller passes `None` (then `recipients` is falsy and the function raises
`No recipients specified` before anything else).  Attachments are built
before the SMTP connection, so an attachment failure raises
`Attachment error: ...` with no transport activity.  `transport` is the
outcome of the SMTP exchange for this call: `.ok ()` delivers the
message and the function returns `True`; `.error m` models an exception
with text `m`, re-raised as `SMTP error: m`. -/
def send_email (fs : FS) (maxSizeMB : Nat) (recipient : Option String)
    (attachments : List String) (transport : Except String Unit) : SendResult :=
  match recipient with
  | none => ⟨.error "No recipients specified", false⟩
  | some _ =>
    match attachAll fs maxSizeMB attachments with
    | .error e => ⟨.error ("Attachment error: " ++ e), false⟩
    | .ok _ =>
      match transport with
      | .ok _ => ⟨.ok true, true⟩
      | .error m => ⟨.error ("SMTP error: " ++ m), true⟩

/-- The aggregate `results` dictionary of the bulk senders. -/
structure BulkResults where
  total : Nat
  sent : Nat
  failed : Nat
  errors : List String
  success : Bool
deriving DecidableEq

/-- `str(KeyError("email"))`: the column name wrapped in single-quote
characters, the text produced when `recipient_data["email"]` raises. -/
def keyErrorEmail : String :=
  String.singleton (Char.ofNat 39) ++ "email" ++ String.singleton (Char.ofNat 39)

/-- The per-recipient loop of `EmailApplication.send_bulk_emails`.  `i`
is the 0-based position of the next recipient, used only to address the
transport stub; `calls` counts transport (SMTP) exchanges entered so
far.  Template and subject rendering are performed per recipient (the
basic strategy; they are pure and cannot fail here) and do not influence
the tracked observables.  A missing `email` key raises `KeyError` while
the arguments of `send_email` are evaluated, caught by the loop's
`except` arm with `recipient_data.get("email", "unknown")` naming the
recipient; a `send_email` exception is caught by the same arm; in both
cases the loop continues with the next recipient. -/
def bulkAux (fs : FS) (maxSizeMB : Nat) (attachments : List String)
    (templateContent emailSubject : String)
    (transport : Nat → Except String Unit) :
    Nat → List Record → BulkResults → Nat → BulkResults × Nat
  | _, [], acc, calls => (acc, calls)
  | i, r :: rest, acc, calls =>
    let _personalizedBody := basic_template_replace templateContent r
    let _personalizedSubject := basic_template_replace emailSubject r
    match recLookup r "email" with
    | none =>
      bulkAux fs maxSizeMB attachments templateContent emailSubject transport (i + 1) rest
        { acc with
          failed := acc.failed + 1,
          errors := acc.errors ++ ["Error sending to unknown: " ++ keyErrorEmail] }
        calls
    | some email =>
      let sr := send_email fs maxSizeMB (some email) attachments (transport i)
      let calls2 := calls + (if sr.transportCalled then 1 else 0)
      match sr.outcome with
      | .ok true =>
        bulkAux fs maxSizeMB attachments templateContent emailSubject transport (i + 1) rest
          { acc with sent := acc.sent + 1 } calls2
      | .ok false =>
        bulkAux fs maxSizeMB attachments templateContent emailSubject transport (i + 1) rest
          { acc with
            failed := acc.failed + 1,
            errors := acc.errors ++ ["Failed to send to " ++ email] }
          calls2
      | .error m =>
        bulkAux fs maxSizeMB attachments templateContent emailSubject transport (i + 1) rest
          { acc with
            failed := acc.failed + 1,
            errors := acc.errors ++ ["Error sending to " ++ email ++ ": " ++ m] }
          calls2

/-- `EmailApplication.send_bulk_emails`, from the recipient list already
loaded by `CSVReader.read_recipients`: initialises the results with
`total := recipients.length`, runs the per-recipient loop, and finally
sets `success := failed == 0`.  The second component is the total number
of transport exchanges entered. -/
def send_bulk_emails (fs : FS) (maxSizeMB : Nat) (attachments : List String)
    (templateContent emailSubject : String)
    (transport : Nat → Except String Unit) (recipients : List Record) :
    BulkResults × Nat :=
  let init : BulkResults :=
    { total := recipients.length, sent := 0, failed := 0, errors := [], success := false }
  let out := bulkAux fs maxSizeMB attachments templateContent emailSubject transport
    0 recipients init 0
  ({ out.1 with success := out.1.failed == 0 }, out.2)

/-- Claim C1, counterexample: with a missing shared attachment and two
recipients, `send_bulk_emails` does not abort before the per-recipient
loop — it processes both recipients and records a per-recipient failure
for each (while indeed entering zero transport exchanges).  The claimed
immediate `AttachmentError` abort with zero per-recipient outcomes does
not happen. -/
theorem invalid_attachment_counterexample :
    (send_bulk_emails [] 25 ["missing.pdf"] "body" "subject" (fun _ => .ok ())
        [[("email", "a@b.c")], [("email", "d@e.f")]]).1.failed = 2 ∧
    (send_bulk_emails [] 25 ["missing.pdf"] "body" "subject" (fun _ => .ok ())
        [[("email", "a@b.c")], [("email", "d@e.f")]]).1.sent = 0 ∧
    (send_bulk_emails [] 25 ["missing.pdf"] "body" "subject" (fun _ => .ok ())
        [[("email", "a@b.c")], [("email", "d@e.f")]]).1.success = false ∧
    (send_bulk_emails [] 25 ["missing.pdf"] "body" "subject" (fun _ => .ok ())
        [[("email", "a@b.c")], [("email", "d@e.f")]]).2 = 0 ∧
    (send_bulk_emails [] 25 ["missing.pdf"] "body" "subject" (fun _ => .ok ())
        [[("email", "a@b.c")], [("email", "d@e.f")]]).1.errors =
      ["Error sending to a@b.c: Attachment error: Attachment file not found: missing.pdf",
       "Error sending to d@e.f: Attachment error: Attachment file not found: missing.pdf"] := by
  decide

/-- Helper: when the shared attachments are invalid, the application
bulk loop turns every remaining recipient (each carrying an `email`
column) into one more failure with an `Attachment error` line, entering
no transport exchange. -/
theorem bulkAux_attach_error (fs : FS) (maxSizeMB : Nat) (attachments : List String)
    (templateContent emailSubject : String) (transport : Nat → Except String Unit)
    (e : String) (hA : attachAll fs maxSizeMB attachments = .error e) :
    ∀ (l : List Record), (∀ r ∈ l, (recLookup r "email").isSome = true) →
    ∀ (i : Nat) (acc : BulkResults) (calls : Nat),
      bulkAux fs maxSizeMB attachments templateContent emailSubject transport i l acc calls =
        ({ acc with
            failed := acc.failed + l.length,
            errors := acc.errors ++ l.map (fun r =>
              "Error sending to " ++ ((recLookup r "email").getD "") ++ ": " ++
                ("Attachment error: " ++ e)) }, calls) := by
  intro l
  induction l with
  | nil => intro _ i acc calls; simp [bulkAux]
  | cons r rest ih =>
    intro h i acc calls
    obtain ⟨em, hem⟩ := Option.isSome_iff_exists.mp (h r (by simp))
    simp only [bulkAux, hem, send_email, hA]
    rw [ih (fun x hx => h x (by simp [hx]))]
    simp [hem, Nat.add_comm, Nat.add_assoc, Nat.add_left_comm]

/-- Claim C1 as amended: an invalid shared attachment path never leads
to a transport exchange (zero SMTP calls for any number of recipients),
but the run is not aborted before the per-recipient loop: every
recipient is processed and recorded as a failed outcome whose error
line carries the attachment error, so the result has `sent = 0`,
`failed = N`, `success = false` with one error line per recipient. -/
theorem invalid_attachment_never_aborts (fs : FS) (maxSizeMB : Nat)
    (attachments : List String) (templateContent emailSubject : String)
    (transport : Nat → Except String Unit) (recipients : List Record) (e : String)
    (hA : attachAll fs maxSizeMB attachments = .error e)
    (hemail : ∀ r ∈ recipients, (recLookup r "email").isSome = true)
    (hne : recipients ≠ []) :
    (send_bulk_emails fs maxSizeMB attachments templateContent emailSubject
        transport recipients).1.total = recipients.length ∧
    (send_bulk_emails fs maxSizeMB attachments templateContent emailSubject
        transport recipients).1.sent = 0 ∧
    (send_bulk_emails fs maxSizeMB attachments templateContent emailSubject
        transport recipients).1.failed = recipients.length ∧
    (send_bulk_emails fs maxSizeMB attachments templateContent emailSubject
        transport recipients).1.success = false ∧
    (send_bulk_emails fs maxSizeMB attachments templateContent emailSubject
        transport recipients).2 = 0 ∧
    (send_bulk_emails fs maxSizeMB attachments templateContent emailSubject
        transport recipients).1.errors.length = recipients.length ∧
    ∀ err ∈ (send_bulk_emails fs maxSizeMB attachments templateContent emailSubject
        transport recipients).1.errors, containsStr err ("Attachment error: " ++ e) := by
  have hrun := bulkAux_attach_error fs maxSizeMB attachments templateContent emailSubject
    transport e hA recipients hemail 0
    { total := recipients.length, sent := 0, failed := 0, errors := [], success := false } 0
  have hlen : recipients.length ≠ 0 := fun habs => hne (List.length_eq_zero.mp habs)
  refine ⟨?_, ?_, ?_, ?_, ?_, ?_, ?_⟩
  · simp [send_bulk_emails, hrun]
  · simp [send_bulk_emails, hrun]
  · simp [send_bulk_emails, hrun]
  · simp [send_bulk_emails, hrun, beq_eq_false_iff_ne, hne]
  · simp [send_bulk_emails, hrun]
  · simp [send_bulk_emails, hrun]
  · intro err herr
    simp only [send_bulk_emails, hrun] at herr
    simp at herr
    obtain ⟨r, hr, rfl⟩ := herr
    exact containsStr_suffix _ ("Attachment error: " ++ e)

/-- Concrete witness for `invalid_attachment_never_aborts`. -/
theorem invalid_attachment_never_aborts_witness :
    attachAll ([] : FS) 25 ["missing.pdf"] =
        .error "Attachment file not found: missing.pdf" ∧
    (∀ r ∈ [[("email", "a@b.c")]], (recLookup r "email").isSome = true) ∧
    ([[("email", "a@b.c")]] : List Record) ≠ [] ∧
    (send_bulk_emails [] 25 ["missing.pdf"] "body" "subject" (fun _ => .ok ())
        [[("email", "a@b.c")]]).1.sent = 0 ∧
    (send_bulk_emails [] 25 ["missing.pdf"] "body" "subject" (fun _ => .ok ())
        [[("email", "a@b.c")]]).1.failed = 1 ∧
    (send_bulk_emails [] 25 ["missing.pdf"] "body" "subject" (fun _ => .ok ())
        [[("email", "a@b.c")]]).2 = 0 := by
  have h := invalid_attachment_never_aborts [] 25 ["missing.pdf"] "body" "subject"
    (fun _ => .ok ()) [[("email", "a@b.c")]] "Attachment file not found: missing.pdf"
    rfl (by decide) (by decide)
  exact ⟨rfl, by decide, by decide, h.2.1, by simpa using h.2.2.1, h.2.2.2.2.1⟩

/-- Claim C2: in a 5-recipient run whose transport fails for exactly one
recipient (position `k`) and succeeds for all others, every recipient is
attempted, and the result is `total = 5`, `sent = 4`, `failed = 1`,
`success = false`, with the failing recipient's address occurring in an
entry of the `errors` list. -/
theorem single_transport_failure_run (fs : FS) (maxSizeMB : Nat)
    (templateContent emailSubject : String)
    (r0 r1 r2 r3 r4 : Record) (e0 e1 e2 e3 e4 : String) (k : Nat) (msg : String)
    (transport : Nat → Except String Unit)
    (h0 : recLookup r0 "email" = some e0) (h1 : recLookup r1 "email" = some e1)
    (h2 : recLookup r2 "email" = some e2) (h3 : recLookup r3 "email" = some e3)
    (h4 : recLookup r4 "email" = some e4)
    (hk : k < 5)
    (hfail : transport k = .error msg)
    (hok : ∀ i < 5, i ≠ k → transport i = .ok ()) :
    (send_bulk_emails fs maxSizeMB [] templateContent emailSubject transport
        [r0, r1, r2, r3, r4]).1.total = 5 ∧
    (send_bulk_emails fs maxSizeMB [] templateContent emailSubject transport
        [r0, r1, r2, r3, r4]).1.sent = 4 ∧
    (send_bulk_emails fs maxSizeMB [] templateContent emailSubject transport
        [r0, r1, r2, r3, r4]).1.failed = 1 ∧
    (send_bulk_emails fs maxSizeMB [] templateContent emailSubject transport
        [r0, r1, r2, r3, r4]).1.success = false ∧
    ∃ err ∈ (send_bulk_emails fs maxSizeMB [] templateContent emailSubject transport
        [r0, r1, r2, r3, r4]).1.errors,
      containsStr err ([e0, e1, e2, e3, e4].get ⟨k, hk⟩) := by
  interval_cases k
  · have t0 := hfail
    have t1 := hok 1 (by omega) (by omega)
    have t2 := hok 2 (by omega) (by omega)
    have t3 := hok 3 (by omega) (by omega)
    have t4 := hok 4 (by omega) (by omega)
    simp [send_bulk_emails, bulkAux, send_email, attachAll, h0, h1, h2, h3, h4,
      t0, t1, t2, t3, t4]
    exact containsStr_errLine "Error sending to " e0 ": " ("SMTP error: " ++ msg)
  · have t0 := hok 0 (by omega) (by omega)
    have t1 := hfail
    have t2 := hok 2 (by omega) (by omega)
    have t3 := hok 3 (by omega) (by omega)
    have t4 := hok 4 (by omega) (by omega)
    simp [send_bulk_emails, bulkAux, send_email, attachAll, h0, h1, h2, h3, h4,
      t0, t1, t2, t3, t4]
    exact containsStr_errLine "Error sending to " e1 ": " ("SMTP error: " ++ msg)
  · have t0 := hok 0 (by omega) (by omega)
    have t1 := hok 1 (by omega) (by omega)
    have t2 := hfail
    have t3 := hok 3 (by omega) (by omega)
    have t4 := hok 4 (by omega) (by omega)
    simp [send_bulk_emails, bulkAux, send_email, attachAll, h0, h1, h2, h3, h4,
      t0, t1, t2, t3, t4]
    exact containsStr_errLine "Error sending to " e2 ": " ("SMTP error: " ++ msg)
  · have t0 := hok 0 (by omega) (by omega)
    have t1 := hok 1 (by omega) (by omega)
    have t2 := hok 2 (by omega) (by omega)
    have t3 := hfail
    have t4 := hok 4 (by omega) (by omega)
    simp [send_bulk_emails, bulkAux, send_email, attachAll, h0, h1, h2, h3, h4,
      t0, t1, t2, t3, t4]
    exact containsStr_errLine "Error sending to " e3 ": " ("SMTP error: " ++ msg)
  · have t0 := hok 0 (by omega) (by omega)
    have t1 := hok 1 (by omega) (by omega)
    have t2 := hok 2 (by omega) (by omega)
    have t3 := hok 3 (by omega) (by omega)
    have t4 := hfail
    simp [send_bulk_emails, bulkAux, send_email, attachAll, h0, h1, h2, h3, h4,
      t0, t1, t2, t3, t4]
    exact containsStr_errLine "Error sending to " e4 ": " ("SMTP error: " ++ msg)

/-- Concrete witness for `single_transport_failure_run`: a transport
stub failing exactly at recipient 2 (the third of five). -/
theorem single_transport_failure_run_witness :
    (2 : Nat) < 5 ∧
    (fun i => if i = 2 then Except.error "boom" else Except.ok ()) 2 =
      (Except.error "boom" : Except String Unit) ∧
    (send_bulk_emails [] 25 [] "body" "subject"
        (fun i => if i = 2 then .error "boom" else .ok ())
        [[("email", "r1@x.com")], [("email", "r2@x.com")], [("email", "r3@x.com")],
         [("email", "r4@x.com")], [("email", "r5@x.com")]]).1.sent = 4 ∧
    (send_bulk_emails [] 25 [] "body" "subject"
        (fun i => if i = 2 then .error "boom" else .ok ())
        [[("email", "r1@x.com")], [("email", "r2@x.com")], [("email", "r3@x.com")],
         [("email", "r4@x.com")], [("email", "r5@x.com")]]).1.failed = 1 ∧
    ∃ err ∈ (send_bulk_emails [] 25 [] "body" "subject"
        (fun i => if i = 2 then .error "boom" else .ok ())
        [[("email", "r1@x.com")], [("email", "r2@x.com")], [("email", "r3@x.com")],
         [("email", "r4@x.com")], [("email", "r5@x.com")]]).1.errors,
      containsStr err
        (["r1@x.com", "r2@x.com", "r3@x.com", "r4@x.com", "r5@x.com"].get
          ⟨2, by decide⟩) := by
  have h := single_transport_failure_run [] 25 "body" "subject"
    [("email", "r1@x.com")] [("email", "r2@x.com")] [("email", "r3@x.com")]
    [("email", "r4@x.com")] [("email", "r5@x.com")]
    "r1@x.com" "r2@x.com" "r3@x.com" "r4@x.com" "r5@x.com" 2 "boom"
    (fun i => if i = 2 then .error "boom" else .ok ())
    rfl rfl rfl rfl rfl (by omega) (by simp)
    (fun i _ hne => by simp [if_neg hne])
  exact ⟨by omega, by simp, h.2.1, h.2.2.1, h.2.2.2.2⟩

/-- Claim C9: a recipient record with no `email` key is recorded by the
application bulk loop as one more failure whose error line names the
recipient `unknown` (the `KeyError` is caught by the loop's `except`
arm), no transport exchange is entered for that record, and the loop
continues with the remaining recipients. -/
theorem missing_email_recipient_step (fs : FS) (maxSizeMB : Nat)
    (attachments : List String) (templateContent emailSubject : String)
    (transport : Nat → Except String Unit) (i : Nat) (r : Record)
    (rest : List Record) (acc : BulkResults) (calls : Nat)
    (h : recLookup r "email" = none) :
    bulkAux fs maxSizeMB attachments templateContent emailSubject transport i
        (r :: rest) acc calls =
      bulkAux fs maxSizeMB attachments templateContent emailSubject transport (i + 1) rest
        { acc with
          failed := acc.failed + 1,
          errors := acc.errors ++ ["Error sending to unknown: " ++ keyErrorEmail] }
        calls ∧
    containsStr ("Error sending to unknown: " ++ keyErrorEmail) "unknown" := by
  constructor
  · simp [bulkAux, h]
  · decide

/-- Concrete witness for `missing_email_recipient_step`. -/
theorem missing_email_recipient_step_witness :
    recLookup [("name", "Jane")] "email" = none ∧
    (bulkAux [] 25 [] "body" "subject" (fun _ => .ok ()) 0
        [[("name", "Jane")]]
        { total := 1, sent := 0, failed := 0, errors := [], success := false } 0 =
      bulkAux [] 25 [] "body" "subject" (fun _ => .ok ()) 1 []
        { total := 1, sent := 0, failed := 0 + 1,
          errors := [] ++ ["Error sending to unknown: " ++ keyErrorEmail],
          success := false } 0 ∧
      containsStr ("Error sending to unknown: " ++ keyErrorEmail) "unknown") := by
  refine ⟨by decide, ?_⟩
  exact missing_email_recipient_step [] 25 [] "body" "subject" (fun _ => .ok ())
    0 [("name", "Jane")] [] { total := 1, sent := 0, failed := 0, errors := [], success := false }
    0 (by decide)

/-! ## The GUI worker (`EmailWorker._run_bulk_email`) -/

/-- Observable events of the worker thread, in emission order:
`progress` models a `progress_updated` signal, `send` marks an entered
transport (SMTP) exchange, and `item` models an `email_sent` signal (one
per-recipient outcome).  `status_updated` signals carry no per-recipient
outcome and are not modelled. -/
inductive Ev where
  | progress (done total : Nat)
  | send (email : String)
  | item (email : String) (success : Bool) (err : String)
deriving DecidableEq, BEq

/-- Is the event a per-item (`email_sent`) signal? -/
def Ev.isItem : Ev → Bool
  | .item _ _ _ => true
  | _ => false

/-- Number of per-item signals in a trace: how many per-recipient
outcomes the listener received. -/
def itemCount (evs : List Ev) : Nat :=
  (evs.filter Ev.isItem).length

@[simp] theorem itemCount_nil : itemCount [] = 0 := rfl

@[simp] theorem itemCount_append (a b : List Ev) :
    itemCount (a ++ b) = itemCount a + itemCount b := by
  simp [itemCount, List.filter_append]

@[simp] theorem itemCount_progress (d t : Nat) :
    itemCount [Ev.progress d t] = 0 := rfl

@[simp] theorem itemCount_send (e : String) : itemCount [Ev.send e] = 0 := rfl

@[simp] theorem itemCount_item (e : String) (s : Bool) (m : String) :
    itemCount [Ev.item e s m] = 1 := rfl

@[simp] theorem itemCount_sendOpt (c : Bool) (e : String) :
    itemCount (if c = true then [Ev.send e] else []) = 0 := by
  cases c <;> rfl

/-- The per-recipient loop of `EmailWorker._run_bulk_email`.  At each
iteration the worker first reads `should_stop` (modelled by `stop i`,
the value of the flag at the `i`-th check) and breaks if it is set;
otherwise it emits `progress (i + 1) total`, renders body and subject
with its own basic replacement, calls `EmailSender.send_email`, and
emits one `email_sent` item: `(email, true, "")` when the call returned
`True`, `(email, false, "Send failed")` when it returned a falsy value
(dead in practice since `send_email` never returns `False`), and
`(email, false, str(e))` when it raised, the last also appending the raw
message to `errors`.  `email` is `recipient_data.get("email", "Unknown")`. -/
def guiAux (fs : FS) (maxSizeMB : Nat) (attachments : List String)
    (templateContent subjectContent : String) (stop : Nat → Bool)
    (transport : Nat → Except String Unit) (total : Nat) :
    Nat → List Record → BulkResults → List Ev → BulkResults × List Ev
  | _, [], acc, evs => (acc, evs)
  | i, r :: rest, acc, evs =>
    if stop i then (acc, evs)
    else
      let email := (recLookup r "email").getD "Unknown"
      let evs1 := evs ++ [Ev.progress (i + 1) total]
      let _personalizedBody := basic_template_replace templateContent r
      let _personalizedSubject := basic_template_replace subjectContent r
      let sr := send_email fs maxSizeMB (recLookup r "email") attachments (transport i)
      let evs2 := evs1 ++ (if sr.transportCalled then [Ev.send email] else [])
      match sr.outcome with
      | .ok true =>
        guiAux fs maxSizeMB attachments templateContent subjectContent stop transport total
          (i + 1) rest { acc with sent := acc.sent + 1 }
          (evs2 ++ [Ev.item email true ""])
      | .ok false =>
        guiAux fs maxSizeMB attachments templateContent subjectContent stop transport total
          (i + 1) rest { acc with failed := acc.failed + 1 }
          (evs2 ++ [Ev.item email false "Send failed"])
      | .error m =>
        guiAux fs maxSizeMB attachments templateContent subjectContent stop transport total
          (i + 1) rest
          { acc with failed := acc.failed + 1, errors := acc.errors ++ [m] }
          (evs2 ++ [Ev.item email false m])

/-- `EmailWorker._run_bulk_email`: emits the initial `progress 0 total`
signal, runs the loop, then sets `success := failed == 0` (this happens
after the loop whether it was exhausted or broken by cancellation) and
hands the results to the `finished` signal. -/
def run_bulk_email (fs : FS) (maxSizeMB : Nat) (attachments : List String)
    (templateContent subjectContent : String) (stop : Nat → Bool)
    (transport : Nat → Except String Unit) (recipients : List Record) :
    BulkResults × List Ev :=
  let total := recipients.length
  let init : BulkResults :=
    { total := total, sent := 0, failed := 0, errors := [], success := false }
  let out := guiAux fs maxSizeMB attachments templateContent subjectContent stop
    transport total 0 recipients init [Ev.progress 0 total]
  ({ out.1 with success := out.1.failed == 0 }, out.2)

/-- Helper: with a cancellation flag that becomes set at the `k`-th
check, the worker loop leaves `total` untouched and processes exactly
`min (k - i) l.length` further recipients, each contributing exactly one
unit to `sent + failed` and exactly one per-item event. -/
theorem guiAux_cancel (fs : FS) (maxSizeMB : Nat) (attachments : List String)
    (templateContent subjectContent : String) (transport : Nat → Except String Unit)
    (total k : Nat) :
    ∀ (l : List Record) (i : Nat) (acc : BulkResults) (evs : List Ev),
      (guiAux fs maxSizeMB attachments templateContent subjectContent
          (fun j => decide (k ≤ j)) transport total i l acc evs).1.total = acc.total ∧
      (guiAux fs maxSizeMB attachments templateContent subjectContent
          (fun j => decide (k ≤ j)) transport total i l acc evs).1.sent +
        (guiAux fs maxSizeMB attachments templateContent subjectContent
          (fun j => decide (k ≤ j)) transport total i l acc evs).1.failed =
        acc.sent + acc.failed + min (k - i) l.length ∧
      itemCount (guiAux fs maxSizeMB attachments templateContent subjectContent
          (fun j => decide (k ≤ j)) transport total i l acc evs).2 =
        itemCount evs + min (k - i) l.length := by
  intro l
  induction l with
  | nil => intro i acc evs; simp [guiAux]
  | cons r rest ih =>
    intro i acc evs
    by_cases hik : k ≤ i
    · have hz : k - i = 0 := Nat.sub_eq_zero_of_le hik
      simp [guiAux, hik, hz]
    · have hd : (decide (k ≤ i)) = false := decide_eq_false hik
      rcases hout : (send_email fs maxSizeMB (recLookup r "email") attachments
          (transport i)).outcome with m | b
      · refine ⟨?_, ?_, ?_⟩
        · simp only [guiAux, hd, hout, Bool.false_eq_true, if_false]
          rw [(ih (i + 1) _ _).1]
        · simp only [guiAux, hd, hout, Bool.false_eq_true, if_false]
          rw [(ih (i + 1) _ _).2.1]
          dsimp only
          simp only [List.length_cons]
          omega
        · simp only [guiAux, hd, hout, Bool.false_eq_true, if_false]
          rw [(ih (i + 1) _ _).2.2]
          simp only [itemCount_append, itemCount_progress, itemCount_send, itemCount_item,
            itemCount_sendOpt, itemCount_nil, List.length_cons]
          omega
      · cases b
        · refine ⟨?_, ?_, ?_⟩
          · simp only [guiAux, hd, hout, Bool.false_eq_true, if_false]
            rw [(ih (i + 1) _ _).1]
          · simp only [guiAux, hd, hout, Bool.false_eq_true, if_false]
            rw [(ih (i + 1) _ _).2.1]
            dsimp only
            simp only [List.length_cons]
            omega
          · simp only [guiAux, hd, hout, Bool.false_eq_true, if_false]
            rw [(ih (i + 1) _ _).2.2]
            simp only [itemCount_append, itemCount_progress, itemCount_send, itemCount_item,
              itemCount_sendOpt, itemCount_nil, List.length_cons]
            omega
        · refine ⟨?_, ?_, ?_⟩
          · simp only [guiAux, hd, hout, Bool.false_eq_true, if_false]
            rw [(ih (i + 1) _ _).1]
          · simp only [guiAux, hd, hout, Bool.false_eq_true, if_false]
            rw [(ih (i + 1) _ _).2.1]
            dsimp only
            simp only [List.length_cons]
            omega
          · simp only [guiAux, hd, hout, Bool.false_eq_true, if_false]
            rw [(ih (i + 1) _ _).2.2]
            simp only [itemCount_append, itemCount_progress, itemCount_send, itemCount_item,
              itemCount_sendOpt, itemCount_nil, List.length_cons]
            omega

/-- Claim C3: if cancellation is requested after `k` of `N` recipients
have been processed (the `should_stop` flag reads false at the first `k`
loop checks and true from the `k`-th check on), no new recipient is
started: the final result still has `total = N`, exactly `k` recipients
contribute to `sent + failed`, and exactly `k` per-recipient outcomes
were emitted — none exists for the remaining `N - k` recipients.  (The
flag is only read at the top of an iteration, so an in-flight send
always finishes; this is inherent to the loop structure modelled.) -/
theorem cancellation_stops_new_recipients (fs : FS) (maxSizeMB : Nat)
    (attachments : List String) (templateContent subjectContent : String)
    (transport : Nat → Except String Unit) (recipients : List Record)
    (stop : Nat → Bool) (k N : Nat)
    (hstop : ∀ j, stop j = decide (k ≤ j))
    (hN : recipients.length = N) (hk : k ≤ N) :
    (run_bulk_email fs maxSizeMB attachments templateContent subjectContent stop
        transport recipients).1.total = N ∧
    (run_bulk_email fs maxSizeMB attachments templateContent subjectContent stop
        transport recipients).1.sent +
      (run_bulk_email fs maxSizeMB attachments templateContent subjectContent stop
        transport recipients).1.failed = k ∧
    itemCount (run_bulk_email fs maxSizeMB attachments templateContent subjectContent stop
        transport recipients).2 = k := by
  have hs : stop = fun j => decide (k ≤ j) := funext hstop
  subst hs
  obtain ⟨H1, H2, H3⟩ := guiAux_cancel fs maxSizeMB attachments templateContent
    subjectContent transport recipients.length k recipients 0
    { total := recipients.length, sent := 0, failed := 0, errors := [], success := false }
    [Ev.progress 0 recipients.length]
  refine ⟨?_, ?_, ?_⟩
  · simp only [run_bulk_email]
    rw [H1]
    exact hN
  · simp only [run_bulk_email]
    rw [H2]
    show 0 + 0 + min (k - 0) recipients.length = k
    omega
  · simp only [run_bulk_email]
    rw [H3]
    show 0 + min (k - 0) recipients.length = k
    omega

/-- Concrete witness for `cancellation_stops_new_recipients`:
cancellation requested after 5 of 10 recipients. -/
theorem cancellation_stops_new_recipients_witness :
    (∀ j, (fun j => decide (5 ≤ j)) j = decide (5 ≤ j)) ∧
    ([[("email", "r1@x")], [("email", "r2@x")], [("email", "r3@x")],
      [("email", "r4@x")], [("email", "r5@x")], [("email", "r6@x")],
      [("email", "r7@x")], [("email", "r8@x")], [("email", "r9@x")],
      [("email", "r10@x")]] : List Record).length = 10 ∧
    (5 : Nat) ≤ 10 ∧
    ((run_bulk_email [] 25 [] "body" "subject" (fun j => decide (5 ≤ j))
        (fun _ => .ok ())
        [[("email", "r1@x")], [("email", "r2@x")], [("email", "r3@x")],
         [("email", "r4@x")], [("email", "r5@x")], [("email", "r6@x")],
         [("email", "r7@x")], [("email", "r8@x")], [("email", "r9@x")],
         [("email", "r10@x")]]).1.total = 10 ∧
      (run_bulk_email [] 25 [] "body" "subject" (fun j => decide (5 ≤ j))
        (fun _ => .ok ())
        [[("email", "r1@x")], [("email", "r2@x")], [("email", "r3@x")],
         [("email", "r4@x")], [("email", "r5@x")], [("email", "r6@x")],
         [("email", "r7@x")], [("email", "r8@x")], [("email", "r9@x")],
         [("email", "r10@x")]]).1.sent +
        (run_bulk_email [] 25 [] "body" "subject" (fun j => decide (5 ≤ j))
          (fun _ => .ok ())
          [[("email", "r1@x")], [("email", "r2@x")], [("email", "r3@x")],
           [("email", "r4@x")], [("email", "r5@x")], [("email", "r6@x")],
           [("email", "r7@x")], [("email", "r8@x")], [("email", "r9@x")],
           [("email", "r10@x")]]).1.failed = 5 ∧
      itemCount (run_bulk_email [] 25 [] "body" "subject" (fun j => decide (5 ≤ j))
        (fun _ => .ok ())
        [[("email", "r1@x")], [("email", "r2@x")], [("email", "r3@x")],
         [("email", "r4@x")], [("email", "r5@x")], [("email", "r6@x")],
         [("email", "r7@x")], [("email", "r8@x")], [("email", "r9@x")],
         [("email", "r10@x")]]).2 = 5) := by
  refine ⟨fun j => rfl, rfl, by omega, ?_⟩
  exact cancellation_stops_new_recipients [] 25 [] "body" "subject" (fun _ => .ok ())
    [[("email", "r1@x")], [("email", "r2@x")], [("email", "r3@x")],
     [("email", "r4@x")], [("email", "r5@x")], [("email", "r6@x")],
     [("email", "r7@x")], [("email", "r8@x")], [("email", "r9@x")],
     [("email", "r10@x")]]
    (fun j => decide (5 ≤ j)) 5 10 (fun j => rfl) rfl (by omega)

/-- The block of events one processed recipient contributes to the
worker's trace: the speculative progress signal, then the transport
exchange (when one is entered), then the per-item outcome signal. -/
def stepEvents (fs : FS) (maxSizeMB : Nat) (attachments : List String)
    (transport : Except String Unit) (total i : Nat) (r : Record) : List Ev :=
  let email := (recLookup r "email").getD "Unknown"
  let sr := send_email fs maxSizeMB (recLookup r "email") attachments transport
  Ev.progress (i + 1) total ::
    ((if sr.transportCalled then [Ev.send email] else []) ++
      [match sr.outcome with
       | .ok true => Ev.item email true ""
       | .ok false => Ev.item email false "Send failed"
       | .error m => Ev.item email false m])

/-- Helper: without cancellation, the worker's trace is the incoming
events followed by one `stepEvents` block per recipient, in recipient
order. -/
theorem guiAux_trace (fs : FS) (maxSizeMB : Nat) (attachments : List String)
    (templateContent subjectContent : String) (transport : Nat → Except String Unit)
    (total : Nat) :
    ∀ (l : List Record) (i : Nat) (acc : BulkResults) (evs : List Ev),
      (guiAux fs maxSizeMB attachments templateContent subjectContent (fun _ => false)
          transport total i l acc evs).2 =
        evs ++ ((l.enumFrom i).map (fun p =>
          stepEvents fs maxSizeMB attachments (transport p.1) total p.1 p.2)).flatten := by
  intro l
  induction l with
  | nil => intro i acc evs; simp [guiAux, List.enumFrom]
  | cons r rest ih =>
    intro i acc evs
    rcases hout : (send_email fs maxSizeMB (recLookup r "email") attachments
        (transport i)).outcome with m | b
    · simp only [guiAux, Bool.false_eq_true, if_false, hout]
      rw [ih]
      simp [stepEvents, hout, List.enumFrom, List.append_assoc]
    · cases b
      · simp only [guiAux, Bool.false_eq_true, if_false, hout]
        rw [ih]
        simp [stepEvents, hout, List.enumFrom, List.append_assoc]
      · simp only [guiAux, Bool.false_eq_true, if_false, hout]
        rw [ih]
        simp [stepEvents, hout, List.enumFrom, List.append_assoc]

/-- Claim C7, counterexample: in a run over one recipient whose send
succeeds, the full trace is `[progress 0 1, progress 1 1, send, item]`:
the progress event counting the recipient as processed (`progress 1 1`)
is emitted strictly before the transport exchange, never after the send
completes — whenever the trace contains the send event at position `j1`
and the progress event at position `j2`, then `j2 < j1`. -/
theorem progress_before_send_counterexample :
    (run_bulk_email [] 25 [] "body" "subject" (fun _ => false) (fun _ => .ok ())
        [[("email", "a@b.c")]]).2 =
      [Ev.progress 0 1, Ev.progress 1 1, Ev.send "a@b.c", Ev.item "a@b.c" true ""] ∧
    ∀ j1 < 4, ∀ j2 < 4,
      (run_bulk_email [] 25 [] "body" "subject" (fun _ => false) (fun _ => .ok ())
          [[("email", "a@b.c")]]).2.get? j1 = some (Ev.send "a@b.c") →
      (run_bulk_email [] 25 [] "body" "subject" (fun _ => false) (fun _ => .ok ())
          [[("email", "a@b.c")]]).2.get? j2 = some (Ev.progress 1 1) →
      j2 < j1 := by
  decide

/-- Claim C7 as amended: progress and per-item events are emitted in
strict recipient order, synchronously with processing — the trace is the
initial `progress 0 N` followed by one contiguous block per recipient in
recipient order — and within each block the per-item event comes last,
after the send; the progress event `(i + 1, total)` counting recipient
`i` as processed is however emitted at the start of the block, before
that recipient's send, not after it completes. -/
theorem event_order_per_recipient (fs : FS) (maxSizeMB : Nat)
    (attachments : List String) (templateContent subjectContent : String)
    (transport : Nat → Except String Unit) (recipients : List Record) :
    (run_bulk_email fs maxSizeMB attachments templateContent subjectContent
        (fun _ => false) transport recipients).2 =
      Ev.progress 0 recipients.length ::
        ((recipients.enumFrom 0).map (fun p =>
          stepEvents fs maxSizeMB attachments (transport p.1) recipients.length
            p.1 p.2)).flatten ∧
    ∀ (t : Except String Unit) (tot j : Nat) (r : Record),
      ∃ mids it, stepEvents fs maxSizeMB attachments t tot j r =
        Ev.progress (j + 1) tot :: (mids ++ [it]) ∧ it.isItem = true := by
  constructor
  · have h := guiAux_trace fs maxSizeMB attachments templateContent subjectContent
      transport recipients.length recipients 0
      { total := recipients.length, sent := 0, failed := 0, errors := [], success := false }
      [Ev.progress 0 recipients.length]
    simp only [run_bulk_email]
    rw [h]
    simp
  · intro t tot j r
    rcases hout : (send_email fs maxSizeMB (recLookup r "email") attachments
        t).outcome with m | b
    · exact ⟨(if (send_email fs maxSizeMB (recLookup r "email") attachments
          t).transportCalled then [Ev.send ((recLookup r "email").getD "Unknown")] else []),
        Ev.item ((recLookup r "email").getD "Unknown") false m,
        by simp [stepEvents, hout], rfl⟩
    · cases b
      · exact ⟨(if (send_email fs maxSizeMB (recLookup r "email") attachments
            t).transportCalled then [Ev.send ((recLookup r "email").getD "Unknown")] else []),
          Ev.item ((recLookup r "email").getD "Unknown") false "Send failed",
          by simp [stepEvents, hout], rfl⟩
      · exact ⟨(if (send_email fs maxSizeMB (recLookup r "email") attachments
            t).transportCalled then [Ev.send ((recLookup r "email").getD "Unknown")] else []),
          Ev.item ((recLookup r "email").getD "Unknown") true "",
          by simp [stepEvents, hout], rfl⟩

/-! ## `CSVReader.read_recipients` -/

/-- Python whitespace as stripped by `str.strip()` (ASCII range). -/
def pySpace (c : Char) : Bool :=
  c == ' ' || c == '\t' || c == '\n' || c == '\r' ||
    c == Char.ofNat 11 || c == Char.ofNat 12

/-- Python `str.strip()`: remove leading and trailing whitespace. -/
def pyStrip (s : String) : String :=
  ⟨((s.data.dropWhile pySpace).reverse.dropWhile pySpace).reverse⟩

/-- The per-cell cleaning `str(value).strip() if value else ""`: a falsy
(empty) cell stays empty, any other cell is stripped. -/
def cleanCell (v : String) : String :=
  if v = "" then "" else pyStrip v

/-- `CSVReader.read_recipients`, modelled from the parsed grid the
`csv.DictReader` yields: `header` is the first row (the field names) and
`rows` are the raw data rows.  File access, delimiter sniffing and the
text decoding are not modelled (their failures — `NotFound`,
`ParseError`, `EncodingError` — happen before this logic).  A row is
skipped when `not any(row.values())`, i.e. when every raw cell is the
empty string; otherwise every cell is cleaned and the row is zipped with
the header, preserving header order.  An empty header models
`reader.fieldnames` being falsy; an empty result raises the
no-valid-recipients error. -/
def read_recipients (header : List String) (rows : List (List String)) :
    Except String (List Record) :=
  if header = [] then
    .error "CSV file appears to be empty or has no headers"
  else
    let recipients := rows.filterMap (fun row =>
      if row.all (fun c => c == "") then none
      else some ((header.zip row).map (fun kv => (kv.1, cleanCell kv.2))))
    if recipients = [] then
      .error "No valid recipients found in CSV file"
    else
      .ok recipients

/-- A `filterMap` whose function is none-on-`p` is a filter followed by
a map. -/
theorem filterMap_ite_none {α β : Type} (p : α → Bool) (g : α → β) (l : List α) :
    l.filterMap (fun a => if p a then none else some (g a)) =
      (l.filter (fun a => !p a)).map g := by
  induction l with
  | nil => simp
  | cons a l ih => by_cases h : p a <;> simp [h, ih]

/-- Claim C4, counterexample: a data row whose cells are whitespace-only
(every cell empty **after** trimming, but not before) is **kept**, not
skipped: the loaded list has two records, the second with all-empty
values.  The skip test `not any(row.values())` runs on the raw cells,
before trimming. -/
theorem whitespace_row_kept_counterexample :
    read_recipients ["email", "name"] [["a@b.c", "Jane"], [" ", " "]] =
      .ok [[("email", "a@b.c"), ("name", "Jane")], [("email", ""), ("name", "")]] := by
  rfl

/-- Claim C4 as amended: for a valid input (non-empty header, every data
row as wide as the header, at least one row with a non-empty raw cell),
loading returns exactly one record per row that has at least one
non-empty **raw** cell — rows whose every cell is empty before trimming
are skipped — in row order; each record carries all header columns in
header order with cell values trimmed (a whitespace-only row is kept,
with empty-string values). -/
theorem read_recipients_keeps_nonempty_rows (header : List String)
    (rows : List (List String))
    (hh : header ≠ [])
    (hlen : ∀ row ∈ rows, row.length = header.length)
    (hne : ∃ row ∈ rows, row.all (fun c => c == "") = false) :
    read_recipients header rows =
      .ok ((rows.filter (fun row => !row.all (fun c => c == ""))).map
        (fun row => (header.zip row).map (fun kv => (kv.1, cleanCell kv.2)))) ∧
    ∀ rec ∈ (rows.filter (fun row => !row.all (fun c => c == ""))).map
        (fun row => (header.zip row).map (fun kv => (kv.1, cleanCell kv.2))),
      rec.map Prod.fst = header := by
  have hfm := filterMap_ite_none (fun row => row.all (fun c => c == ""))
    (fun row => (header.zip row).map (fun kv => (kv.1, cleanCell kv.2))) rows
  constructor
  · obtain ⟨row, hrow, hp⟩ := hne
    have hmem : row ∈ rows.filter (fun row => !row.all (fun c => c == "")) :=
      List.mem_filter.mpr ⟨hrow, by simp [hp]⟩
    have hnil : (rows.filter (fun row => !row.all (fun c => c == ""))).map
        (fun row => (header.zip row).map (fun kv => (kv.1, cleanCell kv.2))) ≠ [] := by
      intro habs
      exact (List.ne_nil_of_mem (List.mem_map_of_mem _ hmem)) habs
    simp only [read_recipients, if_neg hh, hfm, if_neg hnil]
  · intro rec hmem
    obtain ⟨row, hrowf, rfl⟩ := List.mem_map.mp hmem
    have hrow : row ∈ rows := (List.mem_filter.mp hrowf).1
    have hle : header.length ≤ row.length := by rw [hlen row hrow]
    rw [List.map_map]
    have : (Prod.fst ∘ fun kv : String × String => (kv.1, cleanCell kv.2)) =
        Prod.fst := by
      funext kv
      rfl
    rw [this]
    exact List.map_fst_zip header row hle

/-- Concrete witness for `read_recipients_keeps_nonempty_rows`. -/
theorem read_recipients_keeps_nonempty_rows_witness :
    (["email", "name"] : List String) ≠ [] ∧
    (∀ row ∈ [["a@b.c", "Jane"], [" ", " "]],
      row.length = (["email", "name"] : List String).length) ∧
    (∃ row ∈ [["a@b.c", "Jane"], [" ", " "]],
      row.all (fun c => c == "") = false) ∧
    (read_recipients ["email", "name"] [["a@b.c", "Jane"], [" ", " "]] =
        .ok (([["a@b.c", "Jane"], [" ", " "]].filter
            (fun row => !row.all (fun c => c == ""))).map
          (fun row => ((["email", "name"].zip row).map
            (fun kv => (kv.1, cleanCell kv.2))))) ∧
      ∀ rec ∈ (([["a@b.c", "Jane"], [" ", " "]].filter
          (fun row => !row.all (fun c => c == ""))).map
        (fun row => ((["email", "name"].zip row).map
          (fun kv => (kv.1, cleanCell kv.2))))),
        rec.map Prod.fst = ["email", "name"]) := by
  refine ⟨by decide, by decide, ⟨["a@b.c", "Jane"], by decide⟩, ?_⟩
  exact read_recipients_keeps_nonempty_rows ["email", "name"]
    [["a@b.c", "Jane"], [" ", " "]] (by decide) (by decide)
    ⟨["a@b.c", "Jane"], by decide⟩

/-! ## `TemplateRenderer.render_template` (purity) -/

/-- The instance state of `TemplateRenderer` visible to the render path
(`logger` only logs; `jinja_env` is only built in the constructor).
The state is threaded explicitly so that absence of mutation is a
provable statement rather than a convention. -/
structure RendererState where
  templateDirectory : Option String
deriving DecidableEq

/-- `TemplateRenderer.render_template`, with the instance state and the
record threaded explicitly: read the template file (failing with
`Template file not found` when the path does not exist), then render.
This models the basic strategy (`JINJA2_AVAILABLE = False`, identical to
the GUI worker's `render_template`); the rich strategy delegates to the
external Jinja2 library and is outside the embedded code.  The source
assigns neither to `self` nor to `data`, which the explicit threading
reflects: both come back unchanged. -/
def render_template (st : RendererState) (fs : FS) (templatePath : String)
    (data : Record) : RendererState × Record × Except String String :=
  match fsLookup fs templatePath with
  | none => (st, data, .error ("Template file not found: " ++ templatePath))
  | some info => (st, data, .ok (basic_template_replace info.content data))

/-- Claim C8: rendering is pure — it leaves the renderer state and the
record unchanged (its only effect is reading the template file; it does
no writes and no network I/O in the model), and rendering the same
template against the same record a second time, from the state and
record the first call returned, produces an identical output. -/
theorem render_template_pure (st : RendererState) (fs : FS)
    (templatePath : String) (data : Record) :
    (render_template st fs templatePath data).1 = st ∧
    (render_template st fs templatePath data).2.1 = data ∧
    (render_template (render_template st fs templatePath data).1 fs templatePath
        (render_template st fs templatePath data).2.1).2.2 =
      (render_template st fs templatePath data).2.2 := by
  cases h : fsLookup fs templatePath <;> simp [render_template, h]

end EmailAutomation
